import Mathlib

/-!
Shallow embedding of the OpenAPI documentation generator found in
`src/Node/Express/Configurations/DocumnetationGenerator.ts`, together with
proofs of the specification's claims about it.

JavaScript plain objects used as keyed maps are embedded as association
lists with first-occurrence lookup and position-preserving overwrite, which
matches JavaScript property-assignment semantics: insertion order is
preserved, assigning to an existing key keeps its slot, assigning to a new
key appends it at the end.
-/

namespace DocGen

section AssocMap

variable {α β : Type} [DecidableEq α]

/-- JavaScript object property read: value of the first entry with the key. -/
def getKey : List (α × β) → α → Option β
  | [], _ => none
  | (k', v') :: t, k => if k' = k then some v' else getKey t k

/-- JavaScript object property write: overwrite the entry in place if the
key is present, otherwise append a new entry at the end. -/
def setKey : List (α × β) → α → β → List (α × β)
  | [], k, v => [(k, v)]
  | (k', v') :: t, k, v => if k' = k then (k, v) :: t else (k', v') :: setKey t k v

theorem getKey_setKey_self (m : List (α × β)) (k : α) (v : β) :
    getKey (setKey m k v) k = some v := by
  induction m with
  | nil => simp [setKey, getKey]
  | cons p t ih =>
    obtain ⟨k', v'⟩ := p
    by_cases h : k' = k
    · simp [setKey, getKey, h]
    · simp [setKey, getKey, h, ih]

theorem getKey_setKey_ne (m : List (α × β)) (k k'' : α) (v : β) (h : k'' ≠ k) :
    getKey (setKey m k v) k'' = getKey m k'' := by
  have h' : ¬(k = k'') := fun hh => h hh.symm
  induction m with
  | nil => simp [setKey, getKey, h']
  | cons p t ih =>
    obtain ⟨k', v'⟩ := p
    by_cases hk : k' = k
    · subst hk
      simp [setKey, getKey, h']
    · simp [setKey, getKey, hk, ih]

theorem setKey_getKey_same (m : List (α × β)) (k : α) (v : β)
    (h : getKey m k = some v) : setKey m k v = m := by
  induction m with
  | nil => simp [getKey] at h
  | cons p t ih =>
    obtain ⟨k', v'⟩ := p
    by_cases hk : k' = k
    · simp [getKey, hk] at h
      simp [setKey, hk, h]
    · simp [getKey, hk] at h
      simp [setKey, hk, ih h]

/-- Registering a list of (key, value) pairs in order. -/
def regFold (L : List (α × β)) (m : List (α × β)) : List (α × β) :=
  L.foldl (fun a p => setKey a p.1 p.2) m

theorem getKey_regFold_not_mem (L : List (α × β)) (m : List (α × β)) (k : α)
    (h : ∀ p ∈ L, p.1 ≠ k) : getKey (regFold L m) k = getKey m k := by
  induction L generalizing m with
  | nil => rfl
  | cons p t ih =>
    have hp : p.1 ≠ k := h p (List.mem_cons_self p t)
    have ht : ∀ q ∈ t, q.1 ≠ k := fun q hq => h q (List.mem_cons_of_mem p hq)
    calc getKey (regFold (p :: t) m) k
        = getKey (regFold t (setKey m p.1 p.2)) k := rfl
      _ = getKey (setKey m p.1 p.2) k := ih (setKey m p.1 p.2) ht
      _ = getKey m k := getKey_setKey_ne m p.1 k p.2 (fun hh => hp hh.symm)

theorem getKey_regFold_self (L : List (α × β)) (m : List (α × β))
    (hnd : (L.map Prod.fst).Nodup) :
    ∀ p ∈ L, getKey (regFold L m) p.1 = some p.2 := by
  induction L generalizing m with
  | nil => intro p hp; cases hp
  | cons q t ih =>
    intro p hp
    have hnd' : (t.map Prod.fst).Nodup := (List.nodup_cons.mp hnd).2
    have hq : q.1 ∉ t.map Prod.fst := (List.nodup_cons.mp hnd).1
    rcases List.mem_cons.mp hp with h | h
    · subst h
      have ht : ∀ r ∈ t, r.1 ≠ p.1 := by
        intro r hr heq
        exact hq (heq ▸ List.mem_map_of_mem Prod.fst hr)
      calc getKey (regFold (p :: t) m) p.1
          = getKey (regFold t (setKey m p.1 p.2)) p.1 := rfl
        _ = getKey (setKey m p.1 p.2) p.1 := getKey_regFold_not_mem t _ p.1 ht
        _ = some p.2 := getKey_setKey_self m p.1 p.2
    · exact ih (setKey m q.1 q.2) hnd' p h

theorem regFold_noop (L : List (α × β)) (m : List (α × β))
    (h : ∀ p ∈ L, getKey m p.1 = some p.2) : regFold L m = m := by
  induction L with
  | nil => rfl
  | cons q t ih =>
    have h1 : setKey m q.1 q.2 = m :=
      setKey_getKey_same m q.1 q.2 (h q (List.mem_cons_self q t))
    calc regFold (q :: t) m = regFold t (setKey m q.1 q.2) := rfl
      _ = regFold t m := by rw [h1]
      _ = m := ih (fun p hp => h p (List.mem_cons_of_mem q hp))

theorem regFold_idem (L : List (α × β)) (m : List (α × β))
    (hnd : (L.map Prod.fst).Nodup) : regFold L (regFold L m) = regFold L m :=
  regFold_noop L (regFold L m) (getKey_regFold_self L m hnd)

end AssocMap

/-! ## Basic enumerations from the source -/

/-- `type MethodType = 'get' | 'post' | 'put' | 'patch' | 'delete'`. -/
inductive MethodType where
  | get | post | put | patch | delete
deriving DecidableEq

/-- `type AuthenticatedUser = 'none' | 'user' | 'admin'`. -/
inductive AuthenticatedUser where
  | none | user | admin
deriving DecidableEq

/-- `type ParamType = 'path' | 'query' | 'cookie'`. -/
inductive ParamType where
  | path | query | cookie
deriving DecidableEq

/-- `type ContentType = 'application/json' | 'multipart/form-data'`;
`json` stands for the string `application/json` and `multipart` for
`multipart/form-data`. -/
inductive ContentType where
  | json | multipart
deriving DecidableEq

/-- Modelled from the spec: the closed error-kind enumeration `ErrorName`
lives in `shared/constants/error.constants`, which is not under `src/`.
The spec names `UNAUTHORIZED` and `VALIDATION_ERROR` explicitly; the other
kinds stand for the remaining members of the closed enumeration, with
`INTERNAL_SERVER_ERROR` left out of the kind-to-status table so that the
spec's default-500 branch is exercised. -/
inductive ErrorName where
  | UNAUTHORIZED | VALIDATION_ERROR | NOT_FOUND | FORBIDDEN | INTERNAL_SERVER_ERROR
deriving DecidableEq, Fintype

/-- The string value of an `ErrorName` member (TypeScript string enum). -/
def errName : ErrorName → String
  | .UNAUTHORIZED => "UNAUTHORIZED"
  | .VALIDATION_ERROR => "VALIDATION_ERROR"
  | .NOT_FOUND => "NOT_FOUND"
  | .FORBIDDEN => "FORBIDDEN"
  | .INTERNAL_SERVER_ERROR => "INTERNAL_SERVER_ERROR"

/-- Modelled from the spec: the fixed kind-to-status table `errorStatusMap`
from `shared/constants/error.constants` (not under `src/`). A kind absent
from the table is represented by `none`. -/
def errorStatusMap : ErrorName → Option Nat
  | .UNAUTHORIZED => some 401
  | .VALIDATION_ERROR => some 400
  | .NOT_FOUND => some 404
  | .FORBIDDEN => some 403
  | .INTERNAL_SERVER_ERROR => Option.none

/-- `errorStatusMap[err] ?? 500`: status resolution with default 500. -/
def errorStatus (e : ErrorName) : Nat := (errorStatusMap e).getD 500

/-! ## Structural (OpenAPI-side) schemas and Zod-side schemas

The source delegates conversion to the external `zod-openapi` library; per
the spec the core only consumes the capabilities "describe a typed value as
a structural schema" (components present, first value is the structural
description, or failure signalled by no components) and "test whether a
schema is object-shaped and enumerate its fields". -/

/-- A structural OpenAPI-style schema as stored in the registry. -/
inductive OASchema where
  | str : OASchema
  | num : OASchema
  | boolS : OASchema
  | binary (required : Option Bool) (description : Option String) : OASchema
  | arrayBinary (required : Option Bool) (description : Option String) : OASchema
  | obj (properties : List (String × OASchema)) : OASchema

/-- Zod schema values (`ZodTypeAny`), abstracted to the shapes the core
inspects: `z.ZodObject` with a named-field shape, and scalar schemas. -/
inductive ZodSchema where
  | zstring : ZodSchema
  | znumber : ZodSchema
  | zboolean : ZodSchema
  | zobject (shape : List (String × ZodSchema)) : ZodSchema

mutual

/-- Structural description of a Zod schema. -/
def toOASchema : ZodSchema → OASchema
  | .zstring => .str
  | .znumber => .num
  | .zboolean => .boolS
  | .zobject shape => .obj (toOAShape shape)

/-- Structural description of an object shape, field by field. -/
def toOAShape : List (String × ZodSchema) → List (String × OASchema)
  | [] => []
  | p :: t => (p.1, toOASchema p.2) :: toOAShape t

end

/-- Modelled from the spec (external collaborator contract, spec section 6):
`createSchema(schema).components` — `some` of the structural description
when the schema is object-shaped, `none` otherwise ("the schema is not
object-shaped and produces no component"). The value is the first value of
the returned components object (`Object.values(openApiSchema.components)[0]`). -/
def createSchemaComponents : ZodSchema → Option OASchema
  | .zobject shape => some (.obj (toOAShape shape))
  | _ => Option.none

/-- `type FileField` from the source. -/
structure FileField where
  name : String
  required : Option Bool
  description : Option String
  type : Option Bool
deriving DecidableEq

/-- The file-field kind flag: `type === 'array'` is `some true`,
`type === 'binary'` is `some false`, absent is `none`. -/
def fileFieldIsArray (f : FileField) : Bool := f.type = some true

/-- The injected property for one file field: the `array` branch writes an
array-of-binary schema, every other case writes a binary schema. -/
def fileFieldSchema (f : FileField) : OASchema :=
  if fileFieldIsArray f then .arrayBinary f.required f.description
  else .binary f.required f.description

/-- `objectSchema.properties[fileField.name] = ...` for each file field, in
order, on the structural schema about to be stored. -/
def injectFileFields (s : OASchema) (ffs : List FileField) : OASchema :=
  match s with
  | .obj props => .obj (ffs.foldl (fun ps f => setKey ps f.name (fileFieldSchema f)) props)
  | s' => s'

/-! ## The schema registry -/

/-- The module-level `const schemas: Record<string, any> = {}`. -/
def Schemas : Type := List (String × OASchema)

/-- `addZodSchema(name, schema, fileFields)`: convert the schema; on
components present, inject the file fields into the structural schema's
property map and store it under `name` (overwriting any prior entry),
returning `true`; otherwise return `false` and leave the registry alone. -/
def addZodSchema (sc : Schemas) (name : String) (schema : ZodSchema)
    (fileFields : List FileField) : Bool × Schemas :=
  match createSchemaComponents schema with
  | some objectSchema => (true, setKey sc name (injectFileFields objectSchema fileFields))
  | Option.none => (false, sc)

/-- One emitted parameter (`ParamsOpenApiSchema`); the source field `in` is
spelled `inLoc` because `in` is reserved in Lean. -/
structure ParamsOpenApiSchema where
  name : String
  inLoc : ParamType
  required : Bool
  schema : OASchema

/-- `generateParamDocFromSchema(name, schema, loc, optionalParams)`:
empty when no name or no schema; empty when registration fails; otherwise
one parameter per field of an object schema, `required` unless the field is
listed in `optionalParams`, with the structural sub-schema of the field. -/
def generateParamDocFromSchema (sc : Schemas) (name : String)
    (schema : Option ZodSchema) (loc : ParamType) (optionalParams : List String) :
    List ParamsOpenApiSchema × Schemas :=
  match schema with
  | Option.none => ([], sc)
  | some s =>
    if name = "" then ([], sc)
    else
      let reg := addZodSchema sc name s []
      if reg.1 = false then ([], reg.2)
      else
        match s with
        | .zobject shape =>
          (shape.map (fun kv =>
            { name := kv.1
              inLoc := loc
              required := if kv.1 ∈ optionalParams then false else true
              schema := toOASchema kv.2 }), reg.2)
        | _ => ([], reg.2)

/-! ## Path syntax translation

`const expressRouteToOpenApiRoute = (p) => p.replace(/:([A-Za-z0-9_]+)/g, '{$1}')`
is embedded by a left-to-right scan: at each position, a `:` followed by a
nonempty maximal run of word characters is rewritten to the braced run, and
scanning resumes after the run; every other character passes through. -/

/-- A character matched by `[A-Za-z0-9_]`. -/
def isWordChar (c : Char) : Bool :=
  (('A' ≤ c ∧ c ≤ 'Z') ∨ ('a' ≤ c ∧ c ≤ 'z') ∨ ('0' ≤ c ∧ c ≤ '9') ∨ c = '_')

/-- Whether the list starts with a word character (the test deciding that a
`:` opens a placeholder). -/
def headIsWord : List Char → Bool
  | [] => false
  | c :: _ => isWordChar c

/-- The global-replace scan. The mode records whether the scan is inside a
placeholder run whose opening brace has been emitted; the run is closed at
the first non-word character (or the end), which is then itself scanned
normally — so it may open the next placeholder, exactly as the regex engine
resumes after a match. -/
def trGo : Bool → List Char → List Char
  | true, [] => ['\x7d']
  | false, [] => []
  | mode, c :: rest =>
    if mode && isWordChar c then c :: trGo true rest
    else
      (if mode then ['\x7d'] else []) ++
      (if (c == ':') && headIsWord rest then '\x7b' :: trGo true rest
       else c :: trGo false rest)

/-- The character-level translation of a route path. -/
def translateAux (l : List Char) : List Char := trGo false l

/-- `expressRouteToOpenApiRoute`. -/
def expressRouteToOpenApiRoute (p : String) : String :=
  String.mk (translateAux p.data)

/-- `true` when the character list contains a `:`-prefixed token, that is a
`:` immediately followed by at least one word character. -/
def hasColonToken : List Char → Bool
  | [] => false
  | c :: rest => ((c == ':') && headIsWord rest) || hasColonToken rest

/-! ## Route descriptors and compiled operation records -/

/-- The `requestSchemas` field of `AddDocRouteParams`. -/
structure RequestSchemas where
  params : Option ZodSchema
  query : Option ZodSchema
  body : Option ZodSchema
  contentType : Option ContentType
  cookies : Option ZodSchema
  optionalParams : Option (List String)
  fileFields : Option (List FileField)

/-- One declared response: description, optional schema, optional cookie
note, optional content type. -/
structure ResponseDoc where
  description : String
  schema : Option ZodSchema
  cookies : Option String
  contentType : Option ContentType

/-- `AddDocRouteParams`: the route descriptor. `responses` is the
`Record<number, ...>` keyed by status code. -/
structure AddDocRouteParams where
  name : String
  route : String
  method : MethodType
  summary : String
  requestSchemas : Option RequestSchemas
  responses : List (Nat × ResponseDoc)
  errors : Option (List ErrorName)
  authenticatedUser : AuthenticatedUser
  tags : Option (List String)

/-- One entry of the compiled operation's `responses` object: a
description, an optional `Set-Cookie` header description, and optional
content given as a content type plus a `$ref` string. -/
structure ResponseEntry where
  description : String
  setCookie : Option String
  content : Option (ContentType × String)
deriving DecidableEq

/-- `#/components/schemas/<name>`. -/
def schemaRef (n : String) : String :=
  "#/components/schemas/" ++ n

/-- The compiled operation record. `requestBody` carries the content type
and the `$ref` string of the body schema (`required: true` is implicit:
the source always sets it). `security` is the presence of the
`[{ bearerAuth: [] }]` requirement. -/
structure Operation where
  summary : String
  parameters : List ParamsOpenApiSchema
  requestBody : Option (ContentType × String)
  responses : List (Nat × ResponseEntry)
  security : Bool
  tags : Option (List String)

/-- `if (!errors.includes(e)) errors.push(e)`. -/
def addErrIfMissing (errs : List ErrorName) (e : ErrorName) : List ErrorName :=
  if e ∈ errs then errs else errs ++ [e]

/-- Step 2 of the compiler: push `UNAUTHORIZED` when authentication is
required. -/
def authErrors (a : AuthenticatedUser) (errs : List ErrorName) : List ErrorName :=
  if a ≠ AuthenticatedUser.none then addErrIfMissing errs ErrorName.UNAUTHORIZED else errs

/-- Push `VALIDATION_ERROR` when the guarding condition holds. -/
def condAddValidation (b : Bool) (errs : List ErrorName) : List ErrorName :=
  if b then addErrIfMissing errs ErrorName.VALIDATION_ERROR else errs

/-- One iteration of the declared-responses loop: with a schema, register
it under `name:response<status>` and on success store the full response
entry (dropping the response entirely on failure); without a schema store a
description-only entry. -/
def respStep (nm : String) (acc : List (Nat × ResponseEntry) × Schemas)
    (r : Nat × ResponseDoc) : List (Nat × ResponseEntry) × Schemas :=
  match r.2.schema with
  | some s =>
    let reg := addZodSchema acc.2 (nm ++ ":response" ++ toString r.1) s []
    if reg.1 then
      (setKey acc.1 r.1
        { description := r.2.description
          setCookie := r.2.cookies
          content := some (r.2.contentType.getD ContentType.json,
                           schemaRef (nm ++ ":response" ++ toString r.1)) }, reg.2)
    else (acc.1, reg.2)
  | Option.none =>
    (setKey acc.1 r.1
      { description := r.2.description, setCookie := Option.none, content := Option.none },
     acc.2)

/-- The error response written for kind `e`:
`{ description: err, content: { 'application/json': { schema: { $ref } } } }`. -/
def errResponseEntry (e : ErrorName) : ResponseEntry :=
  { description := errName e
    setCookie := Option.none
    content := some (ContentType.json, schemaRef (errName e)) }

/-- One iteration of the error-responses loop. -/
def errStep (resps : List (Nat × ResponseEntry)) (e : ErrorName) :
    List (Nat × ResponseEntry) :=
  setKey resps (errorStatus e) (errResponseEntry e)

/-- The body of `addDocRoute` up to (but not including) the final writes to
the `paths` table: returns the compiled operation, the accumulated error
list, and the updated schema registry. -/
def compileDocRoute (sc0 : Schemas) (p : AddDocRouteParams) :
    Operation × List ErrorName × Schemas :=
  let errors0 := p.errors.getD []
  let errors1 := authErrors p.authenticatedUser errors0
  let optionals := (p.requestSchemas.bind RequestSchemas.optionalParams).getD []
  let pathRes := generateParamDocFromSchema sc0 (p.name ++ ":params")
    (p.requestSchemas.bind RequestSchemas.params) ParamType.path optionals
  let errors2 := condAddValidation (!pathRes.1.isEmpty) errors1
  let queryRes := generateParamDocFromSchema pathRes.2 (p.name ++ ":query")
    (p.requestSchemas.bind RequestSchemas.query) ParamType.query optionals
  let errors3 := condAddValidation (!queryRes.1.isEmpty) errors2
  let cookieRes := generateParamDocFromSchema queryRes.2 (p.name ++ ":cookies")
    (p.requestSchemas.bind RequestSchemas.cookies) ParamType.cookie optionals
  let errors4 := condAddValidation (!cookieRes.1.isEmpty) errors3
  let bodyReg :=
    match p.requestSchemas.bind RequestSchemas.body with
    | some b => addZodSchema cookieRes.2 (p.name ++ ":body") b
        ((p.requestSchemas.bind RequestSchemas.fileFields).getD [])
    | Option.none => (false, cookieRes.2)
  let errors5 := condAddValidation bodyReg.1 errors4
  let requestBody :=
    if bodyReg.1 then
      some ((p.requestSchemas.bind RequestSchemas.contentType).getD ContentType.json,
            schemaRef (p.name ++ ":body"))
    else Option.none
  let respRes := p.responses.foldl (respStep p.name) ([], bodyReg.2)
  let responses := errors5.foldl errStep respRes.1
  ({ summary := p.summary
     parameters := pathRes.1 ++ queryRes.1 ++ cookieRes.1
     requestBody := requestBody
     responses := responses
     security := p.authenticatedUser != AuthenticatedUser.none
     tags := p.tags },
   errors5, respRes.2)

/-- The module-level mutable state: `schemas` and `paths`. -/
structure DocState where
  schemas : Schemas
  paths : List (String × List (MethodType × Operation))

/-- `addDocRoute(params)`: compile the operation and write it into the path
table at the translated path and method
(`paths[openApiPath] ??= {}; paths[openApiPath][method] = op`). -/
def addDocRoute (st : DocState) (p : AddDocRouteParams) : DocState :=
  let r := compileDocRoute st.schemas p
  let openApiPath := expressRouteToOpenApiRoute p.route
  { schemas := r.2.2
    paths := setKey st.paths openApiPath
      (setKey ((getKey st.paths openApiPath).getD []) p.method r.1) }

/-- Lookup of the operation registered at a path and method. -/
def getPathOp (st : DocState) (route : String) (m : MethodType) : Option Operation :=
  (getKey st.paths route).bind (fun e => getKey e m)

/-! ## Final document assembly -/

/-- Modelled from the spec: the shared base schema in `errorSchema` from
`shared/schemas/base.schema` (not under `src/`): a common error shape, here
an object with a `message` field. -/
def errorSchemaZ : ZodSchema := ZodSchema.zobject [("message", ZodSchema.zstring)]

/-- `errorSchema.extend({ name: z.string().meta(...) })`: the common error
shape extended with a `name` field (the per-kind description and example
metadata carry no structural content and are abstracted away). -/
def customErrorSchema (_e : ErrorName) : ZodSchema :=
  match errorSchemaZ with
  | ZodSchema.zobject shape => ZodSchema.zobject (setKey shape "name" ZodSchema.zstring)
  | s => s

/-- `Object.values(ErrorName)` in declaration order. -/
def allErrorNames : List ErrorName :=
  [ErrorName.UNAUTHORIZED, ErrorName.VALIDATION_ERROR, ErrorName.NOT_FOUND,
   ErrorName.FORBIDDEN, ErrorName.INTERNAL_SERVER_ERROR]

/-- `addErrorComponents()`: register one globally shared schema per
declared error kind, named after the kind. -/
def addErrorComponents (sc : Schemas) : Schemas :=
  allErrorNames.foldl (fun a n => (addZodSchema a (errName n) (customErrorSchema n) []).2) sc

/-- Modelled from the spec: `baseSchemas` from
`shared/constants/base.schemas.constants` (not under `src/`), a fixed set
of shared base schemas registered at build time; names and contents are
abstracted to one representative object schema. -/
def baseSchemas : List (String × ZodSchema) :=
  [("Pagination", ZodSchema.zobject [("page", ZodSchema.znumber), ("limit", ZodSchema.znumber)])]

/-- The schema-registry effect of `buildOpenApiDoc`: register the base
schemas, then the error components. -/
def buildSchemas (sc : Schemas) : Schemas :=
  addErrorComponents (baseSchemas.foldl (fun a b => (addZodSchema a b.1 b.2 []).2) sc)

/-- The produced OpenAPI document (`createDocument` output), restricted to
the fields the source supplies: fixed metadata, the accumulated path table,
the registered schemas and the single bearer-auth security scheme. -/
structure OpenAPIDoc where
  openapi : String
  title : String
  version : String
  paths : List (String × List (MethodType × Operation))
  schemas : Schemas
  securitySchemeBearer : Bool

/-- `buildOpenApiDoc()`: register base and error schemas, then derive the
document from the current state. The development-mode file write is a side
effect outside the document value and is not part of the embedding. -/
def buildOpenApiDoc (st : DocState) : DocState × OpenAPIDoc :=
  let sc := buildSchemas st.schemas
  ({ schemas := sc, paths := st.paths },
   { openapi := "3.0.0"
     title := "My API"
     version := "1.0.0"
     paths := st.paths
     schemas := sc
     securitySchemeBearer := true })

/-! ## Helper lemmas -/

theorem injectFileFields_nil (s : OASchema) : injectFileFields s [] = s := by
  cases s <;> rfl

theorem mem_addErrIfMissing_self (errs : List ErrorName) (e : ErrorName) :
    e ∈ addErrIfMissing errs e := by
  by_cases h : e ∈ errs <;> simp [addErrIfMissing, h]

theorem mem_addErrIfMissing_mono (errs : List ErrorName) (e e' : ErrorName)
    (h : e ∈ errs) : e ∈ addErrIfMissing errs e' := by
  by_cases h' : e' ∈ errs <;> simp [addErrIfMissing, h', h]

theorem mem_condAddValidation (b : Bool) (errs : List ErrorName) (e : ErrorName)
    (h : e ∈ errs) : e ∈ condAddValidation b errs := by
  cases b
  · exact h
  · exact mem_addErrIfMissing_mono errs e ErrorName.VALIDATION_ERROR h

theorem mem_authErrors_unauthorized (a : AuthenticatedUser) (errs : List ErrorName)
    (h : a ≠ AuthenticatedUser.none) :
    ErrorName.UNAUTHORIZED ∈ authErrors a errs := by
  unfold authErrors
  rw [if_pos h]
  exact mem_addErrIfMissing_self errs ErrorName.UNAUTHORIZED

theorem errorStatus_inj (e e' : ErrorName) (h : errorStatus e = errorStatus e') :
    e = e' := by
  revert h
  revert e e'
  decide

theorem getKey_errFold_not_status (l : List ErrorName)
    (resps : List (Nat × ResponseEntry)) (s : Nat)
    (h : ∀ e ∈ l, errorStatus e ≠ s) :
    getKey (l.foldl errStep resps) s = getKey resps s := by
  induction l generalizing resps with
  | nil => rfl
  | cons a t ih =>
    have ha : errorStatus a ≠ s := h a (List.mem_cons_self a t)
    have ht : ∀ e ∈ t, errorStatus e ≠ s := fun e he => h e (List.mem_cons_of_mem a he)
    calc getKey ((a :: t).foldl errStep resps) s
        = getKey (t.foldl errStep (errStep resps a)) s := rfl
      _ = getKey (errStep resps a) s := ih (errStep resps a) ht
      _ = getKey resps s := getKey_setKey_ne resps (errorStatus a) s (errResponseEntry a)
          (fun hh => ha hh.symm)

theorem getKey_errFold_mem (l : List ErrorName)
    (resps : List (Nat × ResponseEntry)) (e : ErrorName) (he : e ∈ l) :
    getKey (l.foldl errStep resps) (errorStatus e) = some (errResponseEntry e) := by
  induction l generalizing resps with
  | nil => cases he
  | cons a t ih =>
    by_cases h : e ∈ t
    · exact ih (errStep resps a) h
    · have hea : e = a := by
        rcases List.mem_cons.mp he with h' | h'
        · exact h'
        · exact absurd h' h
      subst hea
      have ht : ∀ e' ∈ t, errorStatus e' ≠ errorStatus e := by
        intro e' he' heq
        exact h ((errorStatus_inj e' e heq) ▸ he')
      calc getKey ((e :: t).foldl errStep resps) (errorStatus e)
          = getKey (t.foldl errStep (errStep resps e)) (errorStatus e) := rfl
        _ = getKey (errStep resps e) (errorStatus e) :=
            getKey_errFold_not_status t (errStep resps e) (errorStatus e) ht
        _ = some (errResponseEntry e) :=
            getKey_setKey_self resps (errorStatus e) (errResponseEntry e)

theorem genParam_loc (sc : Schemas) (name : String) (s : Option ZodSchema)
    (loc : ParamType) (opt : List String) :
    ∀ q ∈ (generateParamDocFromSchema sc name s loc opt).1, q.inLoc = loc := by
  intro q hq
  cases s with
  | none =>
    simp only [generateParamDocFromSchema] at hq
    cases hq
  | some s =>
    simp only [generateParamDocFromSchema] at hq
    by_cases hn : name = ""
    · rw [if_pos hn] at hq
      cases hq
    · rw [if_neg hn] at hq
      by_cases hr : (addZodSchema sc name s []).1 = false
      · rw [if_pos hr] at hq
        cases hq
      · rw [if_neg hr] at hq
        cases s with
        | zobject shape =>
          dsimp only at hq
          obtain ⟨kv, _, hkv⟩ := List.mem_map.mp hq
          rw [← hkv]
        | zstring => cases hq
        | znumber => cases hq
        | zboolean => cases hq

theorem genParam_nil_of_fail (sc : Schemas) (name : String) (s : ZodSchema)
    (loc : ParamType) (opt : List String)
    (h : createSchemaComponents s = Option.none) :
    (generateParamDocFromSchema sc name (some s) loc opt).1 = [] := by
  simp only [generateParamDocFromSchema]
  by_cases hn : name = ""
  · rw [if_pos hn]
  · rw [if_neg hn]
    rw [if_pos (show (addZodSchema sc name s []).1 = false by unfold addZodSchema; rw [h])]

theorem trGo_true_word_run (name rest : List Char)
    (h : ∀ c ∈ name, isWordChar c = true) :
    trGo true (name ++ rest) = name ++ trGo true rest := by
  induction name with
  | nil => rfl
  | cons c t ih =>
    have hc : isWordChar c = true := h c (List.mem_cons_self c t)
    have ht : ∀ d ∈ t, isWordChar d = true := fun d hd => h d (List.mem_cons_of_mem c hd)
    show trGo true (c :: (t ++ rest)) = c :: (t ++ trGo true rest)
    rw [trGo]
    simp [hc, ih ht]

theorem trGo_true_close (l : List Char) (h : headIsWord l = false) :
    trGo true l = '\x7d' :: trGo false l := by
  cases l with
  | nil => rfl
  | cons c rest =>
    have hc : isWordChar c = false := by simpa [headIsWord] using h
    rw [trGo, trGo]
    simp [hc]

theorem translateAux_token (name rest : List Char) (h1 : name ≠ [])
    (h2 : ∀ c ∈ name, isWordChar c = true) (h3 : headIsWord rest = false) :
    translateAux (':' :: (name ++ rest)) =
      '\x7b' :: (name ++ '\x7d' :: translateAux rest) := by
  cases name with
  | nil => exact absurd rfl h1
  | cons c t =>
    have hc : isWordChar c = true := h2 c (List.mem_cons_self c t)
    have hw : headIsWord ((c :: t) ++ rest) = true := by simp [headIsWord, hc]
    show trGo false (':' :: ((c :: t) ++ rest)) = _
    rw [trGo]
    simp only [Bool.false_and, if_neg (by simp : ¬(false = true)), hw]
    rw [trGo_true_word_run (c :: t) rest h2, trGo_true_close rest h3]
    simp [translateAux]

theorem translateAux_pass (c : Char) (rest : List Char) (h : c ≠ ':') :
    translateAux (c :: rest) = c :: translateAux rest := by
  have hc : (c == ':') = false := by
    simpa using h
  show trGo false (c :: rest) = c :: trGo false rest
  rw [trGo]
  simp [hc]

theorem translateAux_id (l : List Char) (h : hasColonToken l = false) :
    translateAux l = l := by
  induction l with
  | nil => rfl
  | cons c rest ih =>
    have h' := h
    simp only [hasColonToken, Bool.or_eq_false_iff] at h'
    show trGo false (c :: rest) = c :: rest
    rw [trGo]
    simp [h'.1]
    exact ih h'.2

theorem addZodSchema_none (sc : Schemas) (name : String) (s : ZodSchema)
    (ffs : List FileField) (h : createSchemaComponents s = Option.none) :
    addZodSchema sc name s ffs = (false, sc) := by
  unfold addZodSchema
  rw [h]

theorem addDocRoute_lookup (st : DocState) (p : AddDocRouteParams) :
    getPathOp (addDocRoute st p) (expressRouteToOpenApiRoute p.route) p.method
      = some (compileDocRoute st.schemas p).1 ∧
    (∀ (r : String) (m : MethodType),
      ¬(r = expressRouteToOpenApiRoute p.route ∧ m = p.method) →
      getPathOp (addDocRoute st p) r m = getPathOp st r m) := by
  constructor
  · unfold getPathOp addDocRoute
    dsimp
    rw [getKey_setKey_self]
    dsimp [Option.bind]
    rw [getKey_setKey_self]
  · intro r m hne
    unfold getPathOp addDocRoute
    dsimp
    by_cases hr : r = expressRouteToOpenApiRoute p.route
    · have hm : m ≠ p.method := by
        intro hm'
        exact hne ⟨hr, hm'⟩
      subst hr
      rw [getKey_setKey_self]
      dsimp [Option.bind]
      rw [getKey_setKey_ne _ p.method m _ hm]
      rcases h : getKey st.paths (expressRouteToOpenApiRoute p.route) with _ | l
      · simp [getKey]
      · simp
    · rw [getKey_setKey_ne _ _ _ _ hr]

/-! ## Claim theorems -/

/-- C4: if conversion of the schema yields no structural components,
`addZodSchema` returns `false` and the schema registry is left unchanged. -/
theorem addZodSchema_fail_leaves_registry (sc : Schemas) (name : String)
    (s : ZodSchema) (ffs : List FileField)
    (h : createSchemaComponents s = Option.none) :
    addZodSchema sc name s ffs = (false, sc) :=
  addZodSchema_none sc name s ffs h

/-- Witness for C4: a string schema converts to no components, so its
registration fails on the empty registry, leaving it empty. -/
theorem addZodSchema_fail_leaves_registry_witness :
    createSchemaComponents ZodSchema.zstring = Option.none ∧
    addZodSchema [] ("User") ZodSchema.zstring [] = (false, []) :=
  ⟨rfl, addZodSchema_fail_leaves_registry [] ("User") ZodSchema.zstring [] rfl⟩

/-- C3: a second successful registration under the same name overwrites the
entry with the second schema's structural representation alone, and a
field-injection registration stores the second schema's structure with the
injected binary and array-of-binary fields merged into the entry's field
map. -/
theorem addZodSchema_overwrite_inject (sc : Schemas) (name : String)
    (s1 s2 : ZodSchema) (ffs : List FileField)
    (_h1 : (addZodSchema sc name s1 []).1 = true)
    (h2 : (addZodSchema (addZodSchema sc name s1 []).2 name s2 []).1 = true) :
    getKey (addZodSchema (addZodSchema sc name s1 []).2 name s2 []).2 name
      = createSchemaComponents s2 ∧
    (∀ o2, createSchemaComponents s2 = some o2 →
      getKey (addZodSchema (addZodSchema sc name s1 []).2 name s2 ffs).2 name
        = some (injectFileFields o2 ffs)) := by
  constructor
  · rcases hc : createSchemaComponents s2 with _ | o2
    · exfalso
      rw [addZodSchema_fail_leaves_registry _ name s2 [] hc] at h2
      cases h2
    · unfold addZodSchema
      rw [hc]
      dsimp
      rw [injectFileFields_nil, getKey_setKey_self]
  · intro o2 hc
    unfold addZodSchema
    rw [hc]
    dsimp
    rw [getKey_setKey_self]

/-- Witness for C3: registering an `x`-object then a `y`-object under one
name leaves only the `y`-object retrievable, and a registration with an
injected binary file field stores the `y`-object extended with that field. -/
theorem addZodSchema_overwrite_inject_witness :
    getKey (addZodSchema (addZodSchema []
        ("S") (ZodSchema.zobject [("x", ZodSchema.zstring)]) []).2
        ("S") (ZodSchema.zobject [("y", ZodSchema.zstring)]) []).2 ("S")
      = createSchemaComponents (ZodSchema.zobject [("y", ZodSchema.zstring)]) ∧
    (∀ o2, createSchemaComponents (ZodSchema.zobject [("y", ZodSchema.zstring)]) = some o2 →
      getKey (addZodSchema (addZodSchema []
          ("S") (ZodSchema.zobject [("x", ZodSchema.zstring)]) []).2
          ("S") (ZodSchema.zobject [("y", ZodSchema.zstring)])
          [{ name := "avatar", required := some true, description := Option.none,
             type := some false }]).2 ("S")
        = some (injectFileFields o2
            [{ name := "avatar", required := some true, description := Option.none,
               type := some false }])) :=
  addZodSchema_overwrite_inject [] ("S")
    (ZodSchema.zobject [("x", ZodSchema.zstring)])
    (ZodSchema.zobject [("y", ZodSchema.zstring)])
    [{ name := "avatar", required := some true, description := Option.none,
       type := some false }] rfl rfl

/-- C5: for an object schema with exactly the fields `a` and `b` and
optional-field list `[b]`, query-parameter extraction with a nonempty name
yields exactly the parameter `a` (required) and the parameter `b`
(optional), both located in the query, each carrying the structural
sub-schema of its field. -/
theorem generateParam_query_two_fields (sc : Schemas) (name a b : String)
    (sa sb : ZodSchema) (hname : name ≠ "") (hab : a ≠ b) :
    (generateParamDocFromSchema sc name
        (some (ZodSchema.zobject [(a, sa), (b, sb)])) ParamType.query [b]).1 =
      [{ name := a, inLoc := ParamType.query, required := true, schema := toOASchema sa },
       { name := b, inLoc := ParamType.query, required := false, schema := toOASchema sb }] := by
  simp only [generateParamDocFromSchema]
  rw [if_neg hname]
  simp [addZodSchema, createSchemaComponents, injectFileFields, hab]

/-- Witness for C5: concrete extraction for fields `a` and `b` of scalar
type under the name `list:query`. -/
theorem generateParam_query_two_fields_witness :
    (generateParamDocFromSchema [] ("list:query")
        (some (ZodSchema.zobject [("a", ZodSchema.zstring), ("b", ZodSchema.znumber)]))
        ParamType.query ["b"]).1 =
      [{ name := "a", inLoc := ParamType.query, required := true,
         schema := toOASchema ZodSchema.zstring },
       { name := "b", inLoc := ParamType.query, required := false,
         schema := toOASchema ZodSchema.znumber }] :=
  generateParam_query_two_fields [] ("list:query") ("a") ("b")
    ZodSchema.zstring ZodSchema.znumber (by decide) (by decide)

/-- C7: registering a route sets the path-table entry at the translated
path and method to the newly compiled operation, overwriting whatever was
there, and leaves every other (path, method) entry unchanged. -/
theorem addDocRoute_sets_path_entry (st : DocState) (p : AddDocRouteParams) :
    getPathOp (addDocRoute st p) (expressRouteToOpenApiRoute p.route) p.method
      = some (compileDocRoute st.schemas p).1 ∧
    (∀ (r : String) (m : MethodType),
      ¬(r = expressRouteToOpenApiRoute p.route ∧ m = p.method) →
      getPathOp (addDocRoute st p) r m = getPathOp st r m) :=
  addDocRoute_lookup st p

/-- Witness for C7: registering a second route overwrites nothing else — a
previously registered entry at a different path survives, and the entry at
the registered path and method is the compiled operation. -/
theorem addDocRoute_sets_path_entry_witness :
    getPathOp (addDocRoute
        { schemas := [], paths := [("/other", [(MethodType.get,
            { summary := "other", parameters := [], requestBody := Option.none,
              responses := [], security := false, tags := Option.none })])] }
        { name := "ping", route := "/ping", method := MethodType.get,
          summary := "ping", requestSchemas := Option.none, responses := [],
          errors := Option.none, authenticatedUser := AuthenticatedUser.none,
          tags := Option.none })
      (expressRouteToOpenApiRoute ("/ping")) MethodType.get
      = some (compileDocRoute []
        { name := "ping", route := "/ping", method := MethodType.get,
          summary := "ping", requestSchemas := Option.none, responses := [],
          errors := Option.none, authenticatedUser := AuthenticatedUser.none,
          tags := Option.none }).1 ∧
    getPathOp (addDocRoute
        { schemas := [], paths := [("/other", [(MethodType.get,
            { summary := "other", parameters := [], requestBody := Option.none,
              responses := [], security := false, tags := Option.none })])] }
        { name := "ping", route := "/ping", method := MethodType.get,
          summary := "ping", requestSchemas := Option.none, responses := [],
          errors := Option.none, authenticatedUser := AuthenticatedUser.none,
          tags := Option.none })
      ("/other") MethodType.get
      = getPathOp
        { schemas := [], paths := [("/other", [(MethodType.get,
            { summary := "other", parameters := [], requestBody := Option.none,
              responses := [], security := false, tags := Option.none })])] }
        ("/other") MethodType.get := by
  have h := addDocRoute_sets_path_entry
    { schemas := [], paths := [("/other", [(MethodType.get,
        { summary := "other", parameters := [], requestBody := Option.none,
          responses := [], security := false, tags := Option.none })])] }
    { name := "ping", route := "/ping", method := MethodType.get,
      summary := "ping", requestSchemas := Option.none, responses := [],
      errors := Option.none, authenticatedUser := AuthenticatedUser.none,
      tags := Option.none }
  exact ⟨h.1, h.2 ("/other") MethodType.get (by decide)⟩

theorem translateAux_bare_colon (rest : List Char) (h : headIsWord rest = false) :
    translateAux (':' :: rest) = ':' :: translateAux rest := by
  show trGo false (':' :: rest) = ':' :: trGo false rest
  rw [trGo]
  simp [h]

/-- C8: the path translation maps every `:name` placeholder (a `:` followed
by a nonempty run of word characters) to the braced run, passes every other
character through unchanged — both non-colon characters and a `:` that does
not open a placeholder (the malformed-template case) — and is idempotent on
inputs containing no `:`-prefixed token. -/
theorem expressRoute_translation :
    (∀ name rest : List Char, name ≠ [] → (∀ c ∈ name, isWordChar c = true) →
      headIsWord rest = false →
      translateAux (':' :: (name ++ rest)) = '\x7b' :: (name ++ '\x7d' :: translateAux rest)) ∧
    (∀ (c : Char) (rest : List Char), c ≠ ':' →
      translateAux (c :: rest) = c :: translateAux rest) ∧
    (∀ rest : List Char, headIsWord rest = false →
      translateAux (':' :: rest) = ':' :: translateAux rest) ∧
    (∀ p : String, hasColonToken p.data = false →
      expressRouteToOpenApiRoute (expressRouteToOpenApiRoute p) = expressRouteToOpenApiRoute p) := by
  refine ⟨translateAux_token, translateAux_pass, translateAux_bare_colon, ?_⟩
  intro p h
  have hid : translateAux p.data = p.data := translateAux_id p.data h
  show String.mk (translateAux (String.mk (translateAux p.data)).data)
      = String.mk (translateAux p.data)
  rw [show (String.mk (translateAux p.data)).data = translateAux p.data from rfl, hid, hid]

/-- Witness for C8: the placeholder `:id`, the ordinary character `u`, a
bare colon before `/`, and the placeholder-free route `/users/all`. -/
theorem expressRoute_translation_witness :
    translateAux (':' :: (['i', 'd'] ++ ['/'])) =
      '\x7b' :: (['i', 'd'] ++ '\x7d' :: translateAux ['/']) ∧
    translateAux ('u' :: ['x']) = 'u' :: translateAux ['x'] ∧
    translateAux (':' :: ['/']) = ':' :: translateAux ['/'] ∧
    expressRouteToOpenApiRoute (expressRouteToOpenApiRoute ("/users/all")) =
      expressRouteToOpenApiRoute ("/users/all") :=
  ⟨expressRoute_translation.1 ['i', 'd'] ['/'] (by decide) (by decide) (by decide),
   expressRoute_translation.2.1 'u' ['x'] (by decide),
   expressRoute_translation.2.2.1 ['/'] (by decide),
   expressRoute_translation.2.2.2 ("/users/all") (by decide)⟩

/-- C1: a route with an authentication requirement compiles to an operation
carrying the bearer security requirement, with `UNAUTHORIZED` among its
accumulated error kinds, and with a response registered at the
`UNAUTHORIZED` mapped status referencing the `UNAUTHORIZED` error schema. -/
theorem auth_route_unauthorized (sc : Schemas) (p : AddDocRouteParams)
    (h : p.authenticatedUser ≠ AuthenticatedUser.none) :
    (compileDocRoute sc p).1.security = true ∧
    ErrorName.UNAUTHORIZED ∈ (compileDocRoute sc p).2.1 ∧
    getKey (compileDocRoute sc p).1.responses (errorStatus ErrorName.UNAUTHORIZED)
      = some (errResponseEntry ErrorName.UNAUTHORIZED) := by
  have hmem : ErrorName.UNAUTHORIZED ∈ (compileDocRoute sc p).2.1 := by
    simp only [compileDocRoute]
    exact mem_condAddValidation _ _ _ (mem_condAddValidation _ _ _
      (mem_condAddValidation _ _ _ (mem_condAddValidation _ _ _
        (mem_authErrors_unauthorized _ _ h))))
  refine ⟨?_, hmem, ?_⟩
  · simp only [compileDocRoute]
    simpa [bne_iff_ne] using h
  · have hm := hmem
    simp only [compileDocRoute] at hm ⊢
    exact getKey_errFold_mem _ _ _ hm

/-- Witness for C1: a user-authenticated route with no schemas and no
declared errors. -/
theorem auth_route_unauthorized_witness :
    (compileDocRoute []
      { name := "me", route := "/me", method := MethodType.get, summary := "me",
        requestSchemas := Option.none, responses := [], errors := Option.none,
        authenticatedUser := AuthenticatedUser.user, tags := Option.none }).1.security = true ∧
    ErrorName.UNAUTHORIZED ∈ (compileDocRoute []
      { name := "me", route := "/me", method := MethodType.get, summary := "me",
        requestSchemas := Option.none, responses := [], errors := Option.none,
        authenticatedUser := AuthenticatedUser.user, tags := Option.none }).2.1 ∧
    getKey (compileDocRoute []
      { name := "me", route := "/me", method := MethodType.get, summary := "me",
        requestSchemas := Option.none, responses := [], errors := Option.none,
        authenticatedUser := AuthenticatedUser.user, tags := Option.none }).1.responses
      (errorStatus ErrorName.UNAUTHORIZED)
      = some (errResponseEntry ErrorName.UNAUTHORIZED) :=
  auth_route_unauthorized []
    { name := "me", route := "/me", method := MethodType.get, summary := "me",
      requestSchemas := Option.none, responses := [], errors := Option.none,
      authenticatedUser := AuthenticatedUser.user, tags := Option.none } (by decide)

/-- C6: every error kind accumulated by the compiler yields a response-map
entry at the kind-to-status mapping of that kind (default 500 when the kind
is unmapped) referencing the kind's globally registered error schema. -/
theorem compile_error_responses (sc : Schemas) (p : AddDocRouteParams) (e : ErrorName)
    (he : e ∈ (compileDocRoute sc p).2.1) :
    errorStatus e = (errorStatusMap e).getD 500 ∧
    getKey (compileDocRoute sc p).1.responses (errorStatus e)
      = some (errResponseEntry e) := by
  refine ⟨rfl, ?_⟩
  simp only [compileDocRoute] at he ⊢
  exact getKey_errFold_mem _ _ e he

/-- Witness for C6: a route declaring the unmapped kind
`INTERNAL_SERVER_ERROR`, whose response lands at the default status 500. -/
theorem compile_error_responses_witness :
    errorStatus ErrorName.INTERNAL_SERVER_ERROR
      = (errorStatusMap ErrorName.INTERNAL_SERVER_ERROR).getD 500 ∧
    getKey (compileDocRoute []
      { name := "job", route := "/job", method := MethodType.post, summary := "job",
        requestSchemas := Option.none, responses := [],
        errors := some [ErrorName.INTERNAL_SERVER_ERROR],
        authenticatedUser := AuthenticatedUser.none, tags := Option.none }).1.responses
      (errorStatus ErrorName.INTERNAL_SERVER_ERROR)
      = some (errResponseEntry ErrorName.INTERNAL_SERVER_ERROR) :=
  compile_error_responses []
    { name := "job", route := "/job", method := MethodType.post, summary := "job",
      requestSchemas := Option.none, responses := [],
      errors := some [ErrorName.INTERNAL_SERVER_ERROR],
      authenticatedUser := AuthenticatedUser.none, tags := Option.none }
    ErrorName.INTERNAL_SERVER_ERROR (by decide)

/-- C10: when a route declares a response at a status that is also the
mapped status of one of its accumulated error kinds, the final response-map
entry at that status is the error response — the error loop runs after the
declared-responses loop and overwrites the declared entry. -/
theorem error_response_overwrites_declared (sc : Schemas) (p : AddDocRouteParams)
    (S : Nat) (rd : ResponseDoc) (e : ErrorName)
    (hdecl : (S, rd) ∈ p.responses)
    (he : e ∈ (compileDocRoute sc p).2.1)
    (hst : errorStatus e = S) :
    getKey (compileDocRoute sc p).1.responses S = some (errResponseEntry e) := by
  subst hst
  simp only [compileDocRoute] at he ⊢
  exact getKey_errFold_mem _ _ e he

/-- Witness for C10: an authenticated route declaring its own 401 response;
the compiled entry at 401 is the `UNAUTHORIZED` error response. -/
theorem error_response_overwrites_declared_witness :
    getKey (compileDocRoute []
      { name := "sec", route := "/sec", method := MethodType.get, summary := "sec",
        requestSchemas := Option.none,
        responses := [(401, { description := "custom unauthorized",
                              schema := Option.none, cookies := Option.none,
                              contentType := Option.none })],
        errors := Option.none, authenticatedUser := AuthenticatedUser.admin,
        tags := Option.none }).1.responses 401
      = some (errResponseEntry ErrorName.UNAUTHORIZED) :=
  error_response_overwrites_declared []
    { name := "sec", route := "/sec", method := MethodType.get, summary := "sec",
      requestSchemas := Option.none,
      responses := [(401, { description := "custom unauthorized",
                            schema := Option.none, cookies := Option.none,
                            contentType := Option.none })],
      errors := Option.none, authenticatedUser := AuthenticatedUser.admin,
      tags := Option.none }
    401
    { description := "custom unauthorized", schema := Option.none,
      cookies := Option.none, contentType := Option.none }
    ErrorName.UNAUTHORIZED
    (List.mem_cons_self _ _) (by decide) rfl

/-- C2: for every route descriptor, registration completes and degrades
gracefully: the route is always written into the path table; a body schema
whose conversion fails yields an operation with no request body; a
path-parameters schema whose conversion fails contributes no path-located
parameter; and a declared response whose schema conversion fails is dropped
by the responses loop without touching the accumulator. -/
theorem addDocRoute_never_aborts (st : DocState) (p : AddDocRouteParams) :
    getPathOp (addDocRoute st p) (expressRouteToOpenApiRoute p.route) p.method
      = some (compileDocRoute st.schemas p).1 ∧
    (∀ b, p.requestSchemas.bind RequestSchemas.body = some b →
      createSchemaComponents b = Option.none →
      (compileDocRoute st.schemas p).1.requestBody = Option.none) ∧
    (∀ ps, p.requestSchemas.bind RequestSchemas.params = some ps →
      createSchemaComponents ps = Option.none →
      ∀ q ∈ (compileDocRoute st.schemas p).1.parameters, q.inLoc ≠ ParamType.path) ∧
    (∀ (nm : String) (acc : List (Nat × ResponseEntry) × Schemas) (S : Nat)
      (rd : ResponseDoc) (s : ZodSchema), rd.schema = some s →
      createSchemaComponents s = Option.none →
      (respStep nm acc (S, rd)).1 = acc.1) := by
  refine ⟨(addDocRoute_lookup st p).1, ?_, ?_, ?_⟩
  · intro b hb hc
    simp only [compileDocRoute, hb]
    simp [addZodSchema_none, hc]
  · intro ps hp hc q hq hloc
    simp only [compileDocRoute, hp] at hq
    rw [genParam_nil_of_fail _ _ _ _ _ hc] at hq
    simp only [List.nil_append] at hq
    rcases List.mem_append.mp hq with h | h
    · have := genParam_loc _ _ _ _ _ q h
      rw [hloc] at this
      cases this
    · have := genParam_loc _ _ _ _ _ q h
      rw [hloc] at this
      cases this
  · intro nm acc S rd s hs hc
    simp only [respStep, hs]
    rw [addZodSchema_none _ _ _ _ hc]
    simp

/-- Witness for C2: a route whose path-params schema and body schema are
both scalars (conversion fails for both) but whose query schema is an
object: the route is registered, the request body is omitted, the lone
parameter is the query parameter, and a failing response registration
leaves the accumulator untouched. -/
theorem addDocRoute_never_aborts_witness :
    getPathOp (addDocRoute { schemas := [], paths := [] }
        { name := "w", route := "/w", method := MethodType.post, summary := "w",
          requestSchemas := some
            { params := some ZodSchema.znumber,
              query := some (ZodSchema.zobject [("q", ZodSchema.zstring)]),
              body := some ZodSchema.zstring, contentType := Option.none,
              cookies := Option.none, optionalParams := Option.none,
              fileFields := Option.none },
          responses := [], errors := Option.none,
          authenticatedUser := AuthenticatedUser.none, tags := Option.none })
      (expressRouteToOpenApiRoute ("/w")) MethodType.post
      = some (compileDocRoute []
        { name := "w", route := "/w", method := MethodType.post, summary := "w",
          requestSchemas := some
            { params := some ZodSchema.znumber,
              query := some (ZodSchema.zobject [("q", ZodSchema.zstring)]),
              body := some ZodSchema.zstring, contentType := Option.none,
              cookies := Option.none, optionalParams := Option.none,
              fileFields := Option.none },
          responses := [], errors := Option.none,
          authenticatedUser := AuthenticatedUser.none, tags := Option.none }).1 ∧
    (compileDocRoute []
        { name := "w", route := "/w", method := MethodType.post, summary := "w",
          requestSchemas := some
            { params := some ZodSchema.znumber,
              query := some (ZodSchema.zobject [("q", ZodSchema.zstring)]),
              body := some ZodSchema.zstring, contentType := Option.none,
              cookies := Option.none, optionalParams := Option.none,
              fileFields := Option.none },
          responses := [], errors := Option.none,
          authenticatedUser := AuthenticatedUser.none, tags := Option.none }).1.requestBody
      = Option.none ∧
    ({ name := "q", inLoc := ParamType.query, required := true,
       schema := OASchema.str } : ParamsOpenApiSchema).inLoc ≠ ParamType.path ∧
    (respStep ("w") ([], []) (200,
      { description := "ok", schema := some ZodSchema.zstring,
        cookies := Option.none, contentType := Option.none })).1 = [] := by
  have h := addDocRoute_never_aborts { schemas := [], paths := [] }
    { name := "w", route := "/w", method := MethodType.post, summary := "w",
      requestSchemas := some
        { params := some ZodSchema.znumber,
          query := some (ZodSchema.zobject [("q", ZodSchema.zstring)]),
          body := some ZodSchema.zstring, contentType := Option.none,
          cookies := Option.none, optionalParams := Option.none,
          fileFields := Option.none },
      responses := [], errors := Option.none,
      authenticatedUser := AuthenticatedUser.none, tags := Option.none }
  refine ⟨h.1, h.2.1 ZodSchema.zstring rfl rfl, ?_, ?_⟩
  · exact h.2.2.1 ZodSchema.znumber rfl rfl
      { name := "q", inLoc := ParamType.query, required := true, schema := OASchema.str }
      (List.mem_cons_self _ _)
  · exact h.2.2.2 ("w") ([], []) 200
      { description := "ok", schema := some ZodSchema.zstring,
        cookies := Option.none, contentType := Option.none }
      ZodSchema.zstring rfl rfl

/-- The structural schema registered for every error kind. -/
def errComponentOA : OASchema :=
  OASchema.obj [("message", OASchema.str), ("name", OASchema.str)]

/-- The (name, structural value) pairs registered by `buildOpenApiDoc`, in
registration order: the base schemas, then one error component per kind. -/
def buildRegPairs : List (String × OASchema) :=
  [("Pagination", OASchema.obj [("page", OASchema.num), ("limit", OASchema.num)]),
   ("UNAUTHORIZED", errComponentOA), ("VALIDATION_ERROR", errComponentOA),
   ("NOT_FOUND", errComponentOA), ("FORBIDDEN", errComponentOA),
   ("INTERNAL_SERVER_ERROR", errComponentOA)]

theorem buildSchemas_eq_regFold (sc : Schemas) :
    buildSchemas sc = regFold buildRegPairs sc := rfl

/-- C9: building the document twice in succession with no intervening route
registration yields equal documents: the second build re-runs the global
schema registrations with overwrite semantics over an unchanged path table
and registry snapshot. -/
theorem buildOpenApiDoc_idem (st : DocState) :
    (buildOpenApiDoc (buildOpenApiDoc st).1).2 = (buildOpenApiDoc st).2 := by
  have h : buildSchemas (buildSchemas st.schemas) = buildSchemas st.schemas := by
    rw [buildSchemas_eq_regFold, buildSchemas_eq_regFold]
    exact regFold_idem buildRegPairs st.schemas (by decide)
  simp only [buildOpenApiDoc]
  rw [h]

end DocGen
